import Mathlib

/-!
Shallow embedding of the PyRDF backend/distribution core:
`PyRDF/__init__.py` (backend selection, file registration) and
`PyRDF/backend/Parsl.py` (the Parsl distributed backend).

Python exceptions are modelled by an explicit error type and `Except`;
Python sets of path strings by `Finset String`; parsl futures by explicit
task graphs (`FTree`): a future produced by `app_map` is a leaf holding its
range, a future produced by `app_reduce` is a node holding its two operand
futures, and `.result()` evaluates the graph.  The value of a future is a
function of its task graph alone, so the model is independent of the order
in which futures complete, exactly as for parsl's dataflow futures.
-/

/-- Python exception kinds raised (or named by the spec's taxonomy) in the
embedded code.  `emptyComputationError` and `distributionIOError` are the
spec's taxonomy names; no code path of the repository raises them. -/
inductive PyErr : Type
  | typeError
  | attributeError
  | indexError
  | keyError (key : String)
  | notImplementedError
  | genericException (msg : String)
  | emptyComputationError
  | distributionIOError
deriving DecidableEq, Repr

/-- Task graph of a parsl future in `Parsl.ProcessAndMerge`:
`leaf r` is the future `app_map(mapper, r)`, `node a b` is the future
`app_reduce(reducer, a, b)` with `a` the first-popped (left) operand. -/
inductive FTree (ρ : Type) : Type
  | leaf (r : ρ)
  | node (a b : FTree ρ)
deriving DecidableEq, Repr

namespace FTree

/-- Value of a future: `app_map` runs `mapper(x)`, `app_reduce` runs
`reducer(l1, l2)`; `.result()` forces this evaluation. -/
def evalT {ρ α : Type} (mapper : ρ → α) (reducer : α → α → α) : FTree ρ → α
  | leaf r => mapper r
  | node a b => reducer (evalT mapper reducer a) (evalT mapper reducer b)

/-- Ranges at the leaves of a future's task graph, left to right. -/
def leaves {ρ : Type} : FTree ρ → List ρ
  | leaf r => [r]
  | node a b => leaves a ++ leaves b

end FTree

/-- While-loop of `Parsl.ProcessAndMerge` (lines 75-77): while more than one
future remains, pop the two front-most futures (the first popped becomes the
left operand), submit `app_reduce` on them and append it to the back.
Returns the single remaining future; `none` models `results.pop()` raising
IndexError on an empty list. -/
def mergeLoop {ρ : Type} : List (FTree ρ) → Option (FTree ρ)
  | [] => none
  | [t] => some t
  | x :: y :: rest => mergeLoop (rest ++ [FTree.node x y])
termination_by l => l.length
decreasing_by simp [List.length_append]

/-- Embedding of `Parsl.ProcessAndMerge`: submit `app_map(mapper, i)` for
each range in order (`List.map FTree.leaf`), run the merge worklist loop,
then block once on the final future's `.result()` (`FTree.evalT`). -/
def ProcessAndMerge {ρ α : Type} (mapper : ρ → α) (reducer : α → α → α)
    (ranges : List ρ) : Except PyErr α :=
  match mergeLoop (List.map FTree.leaf ranges) with
  | some t => Except.ok (FTree.evalT mapper reducer t)
  | none => Except.error PyErr.indexError

/-- Modelled from the spec: "running the mapper once over the whole input
and folding serially" — map each range and fold the partial results
serially left-to-right.  Used only to compare `ProcessAndMerge` against the
spec's description. -/
def serial_map_fold {ρ α : Type} (mapper : ρ → α) (reducer : α → α → α) :
    List ρ → Option α
  | [] => none
  | r :: rs => some (List.foldl (fun a q => reducer a (mapper q)) (mapper r) rs)

/-- File system abstraction for `os.path.isdir`, `os.path.isfile` and
`os.walk`: `walk p` is the set of all file paths beneath directory `p`. -/
structure FileSystem : Type where
  isDir : String → Bool
  isFile : String → Bool
  walk : String → Finset String

/-- Embedding of `_get_paths_set_from_string` (`__init__.py` 82-113): a
directory yields the set of all files beneath it, a file yields the
singleton set, and anything else falls off the end of the function, which
in Python returns `None`. -/
def get_paths_set_from_string (fs : FileSystem) (path_string : String) :
    Option (Finset String) :=
  if fs.isDir path_string then some (fs.walk path_string)
  else if fs.isFile path_string then some {path_string}
  else none

/-- The `pcm_paths` set comprehension of `_check_pcm_in_library_path`
(`__init__.py` 132-136): the file paths ending in `.pcm`. -/
def pcm_paths_of (all_paths : Finset String) : Finset String :=
  all_paths.filter (fun f => f.endsWith ".pcm" = true)

/-- The `libraries_path` set comprehension of `_check_pcm_in_library_path`
(`__init__.py` 138-143): the file paths ending in a shared-library suffix
(`.so`, `.dll`, `.dylib`). -/
def libraries_path_of (all_paths : Finset String) : Finset String :=
  all_paths.filter (fun f =>
    (f.endsWith ".so" || f.endsWith ".dll" || f.endsWith ".dylib") = true)

/-- Embedding of `_check_pcm_in_library_path` (`__init__.py` 116-145):
split the resolved paths into the `.pcm` ones and the shared-library ones,
returned in that order.  When the paths resolve to `None`, the first set
comprehension iterates `None` and raises a TypeError. -/
def check_pcm_in_library_path (fs : FileSystem) (shared_library_path : String) :
    Except PyErr (Finset String × Finset String) :=
  match get_paths_set_from_string fs shared_library_path with
  | none => Except.error PyErr.typeError
  | some all_paths => Except.ok (pcm_paths_of all_paths, libraries_path_of all_paths)

/-- Executor parameters mapping (the `parameters` value of the backend
configuration), restricted to the keys the embedded code reads. -/
structure EParams : Type where
  max_threads : Option Nat := none
  label : Option String := none
deriving DecidableEq, Repr

/-- Backend configuration dictionary, restricted to the keys the embedded
code reads; a `none` field is an absent key. -/
structure Conf : Type where
  executor : Option String := none
  parameters : Option EParams := none
  npartitions : Option Nat := none
deriving DecidableEq, Repr

/-- The two parsl executor classes imported by `Parsl.py`.  A
`ThreadPoolExecutor` carries its `max_threads` attribute;
`HighThroughputExecutor` exposes no `max_threads` attribute, so reading it
raises an AttributeError. -/
inductive PExecutor : Type
  | threadPoolExecutor (max_threads : Nat) (label : Option String)
  | highThroughputExecutor (params : EParams)
deriving DecidableEq, Repr

/-- Python attribute lookup of `.max_threads` on an executor instance:
`none` models the attribute being absent (AttributeError on access). -/
def PExecutor.max_threads_attr : PExecutor → Option Nat
  | .threadPoolExecutor mt _ => some mt
  | .highThroughputExecutor _ => none

/-- The `parsl.config.Config` object built in `Parsl.__init__`. -/
structure PConfig : Type where
  executors : List PExecutor
deriving DecidableEq, Repr

/-- The process-wide parsl runtime state mutated by `parsl.clear()` and
`parsl.load(config)`: the currently loaded configuration, if any. -/
def ParslGlobal : Type := Option PConfig

/-- The `globals()[config['executor']](**config['parameters'])` expression
of `Parsl.__init__` (line 39): read `config['executor']` (KeyError when
absent), look the name up among the executor classes in the module globals
(KeyError when unknown), read `config['parameters']` (KeyError when absent)
and construct the executor.  parsl's `ThreadPoolExecutor` defaults
`max_threads` to 2 when the parameter is not given. -/
def make_executor (config : Conf) : Except PyErr PExecutor :=
  match config.executor with
  | none => Except.error (PyErr.keyError "executor")
  | some nm =>
      if nm = "ThreadPoolExecutor" then
        match config.parameters with
        | none => Except.error (PyErr.keyError "parameters")
        | some ps => Except.ok (.threadPoolExecutor (ps.max_threads.getD 2) ps.label)
      else if nm = "HighThroughputExecutor" then
        match config.parameters with
        | none => Except.error (PyErr.keyError "parameters")
        | some ps => Except.ok (.highThroughputExecutor ps)
      else Except.error (PyErr.keyError nm)

/-- Python truthiness of an optional integer: `None` and `0` are falsy. -/
def py_truthy : Option Nat → Bool
  | none => false
  | some n => n != 0

/-- State modelled from the spec: the Spark backend (`Spark.py` is not
under `src/`) "pushes each artifact to every known/expected worker"; we
record the pushed artifacts and, for each `distribute_files` call, the set
it was called with, in call order. -/
structure SparkState : Type where
  pushed : Finset String
  calls : List (Finset String)
deriving DecidableEq

/-- Modelled from the spec: `Spark.distribute_files` (not under `src/`)
pushes every path of the set to the workers.  The call is also appended to
the call log. -/
def Spark.distribute_files (s : SparkState) (files : Finset String) : SparkState :=
  { pushed := s.pushed ∪ files, calls := s.calls ++ [files] }

/-- Instance state of the `Parsl` backend class after `__init__`.
`sparkContext` is the attribute read by `Parsl.distribute_files`; no code
of the class (nor, per the spec, of the `Dist` base, which is not under
`src/`) ever assigns it, so on a `Parsl` instance it is always absent
(`none`). -/
structure ParslState : Type where
  parslConfig : PConfig
  npartitions : Nat
  sparkContext : Option SparkState := none
deriving DecidableEq

namespace Parsl

/-- Embedding of `Parsl._get_partitions` (`Parsl.py` 48-51):
`self.npartitions or self.parslConfig.executors[0].max_threads or 4` with
Python truthiness and short-circuiting: a truthy `self.npartitions` is
returned without touching the executor; otherwise `executors[0]` is an
IndexError on an empty list and `.max_threads` an AttributeError when the
executor class has no such attribute. -/
def get_partitions (np : Option Nat) (cfg : PConfig) : Except PyErr Nat :=
  if py_truthy np then Except.ok (np.getD 0)
  else
    match cfg.executors.head? with
    | none => Except.error PyErr.indexError
    | some ex =>
        match ex.max_threads_attr with
        | none => Except.error PyErr.attributeError
        | some mt => Except.ok (if mt != 0 then mt else 4)

/-- Embedding of `Parsl.__init__` (`Parsl.py` 23-46) threading the
process-wide parsl runtime state: build the executor and config
(`globals()[config['executor']](**config['parameters'])`), then
`parsl.clear()` followed by `parsl.load(_config)` — which replaces whatever
configuration was loaded before — then compute `self.npartitions` via
`_get_partitions`.  The `super().__init__(config)` call is modelled from
the spec: the `Dist` base (not under `src/`) records the configured
`npartitions` value, absent when not configured.  The returned
`ParslGlobal` is the runtime state after the call, also when the
constructor raises after `parsl.load` has already run. -/
def init (g : ParslGlobal) (config : Conf) :
    ParslGlobal × Except PyErr ParslState :=
  match make_executor config with
  | Except.error e => (g, Except.error e)
  | Except.ok ex =>
      let cfg : PConfig := { executors := [ex] }
      let g2 : ParslGlobal := some cfg
      match get_partitions config.npartitions cfg with
      | Except.error e => (g2, Except.error e)
      | Except.ok np =>
          (g2, Except.ok { parslConfig := cfg, npartitions := np, sparkContext := none })

/-- Embedding of `Parsl.distribute_files` (`Parsl.py` 80-94): the loop body
runs `self.sparkContext.addFile(filepath)` for each path of the set.  With
an empty set the attribute is never read; with any element the read of the
absent `sparkContext` attribute raises an AttributeError (were the
attribute present, each path would be pushed as Spark does). -/
def distribute_files (b : ParslState) (includes_list : Finset String) :
    Except PyErr ParslState :=
  if includes_list = ∅ then Except.ok b
  else
    match b.sparkContext with
    | none => Except.error PyErr.attributeError
    | some sc =>
        Except.ok { b with sparkContext := some (Spark.distribute_files sc includes_list) }

end Parsl

/-- The current backend value: `Local`, `Spark` or `Parsl` instance. -/
inductive BackendV : Type
  | localB (conf : Conf)
  | sparkB (s : SparkState)
  | parslB (p : ParslState)
deriving DecidableEq

/-- The `isinstance(current_backend, Local)` test of the registration entry
points. -/
def BackendV.is_local : BackendV → Bool
  | .localB _ => true
  | _ => false

/-- Dispatch of `current_backend.distribute_files(...)`.  The `localB` case
is never reached: every call site guards on `isinstance(current_backend,
Local)` first. -/
def BackendV.distribute_files : BackendV → Finset String → Except PyErr BackendV
  | .localB c, _ => Except.ok (.localB c)
  | .sparkB s, files => Except.ok (.sparkB (Spark.distribute_files s files))
  | .parslB p, files => (Parsl.distribute_files p files).map .parslB

/-- Embedding of `PyRDF.use` (`__init__.py` 43-79), threading the
process-wide parsl runtime state.  `dask` is in `future_backends` and
raises NotImplementedError; `local`, `spark` and `parsl` construct the
respective backend (the Spark constructor, not under `src/`, is modelled
from the spec as starting with nothing pushed); any other name raises a
generic `Exception` naming the incorrect backend environment. -/
def use (g : ParslGlobal) (backend_name : String) (conf : Conf) :
    ParslGlobal × Except PyErr BackendV :=
  if backend_name ∈ ["dask"] then (g, Except.error PyErr.notImplementedError)
  else if backend_name = "local" then (g, Except.ok (BackendV.localB conf))
  else if backend_name = "spark" then
    (g, Except.ok (BackendV.sparkB { pushed := ∅, calls := [] }))
  else if backend_name = "parsl" then
    match Parsl.init g conf with
    | (g2, Except.ok p) => (g2, Except.ok (BackendV.parslB p))
    | (g2, Except.error e) => (g2, Except.error e)
  else
    (g, Except.error (PyErr.genericException
      ("Incorrect backend environment " ++ backend_name)))

/-- Module-level mutable state of `PyRDF/__init__.py`: the current backend
and the three artifact sets. -/
structure PyState : Type where
  current_backend : BackendV
  includes_headers : Finset String
  includes_shared_libraries : Finset String
  includes_files : Finset String
deriving DecidableEq

/-- Argument of a registration entry point: a single path string or an
iterable of path strings (`isinstance(paths, str)` dispatch). -/
inductive PathsArg : Type
  | str (s : String)
  | iter (l : List String)
deriving DecidableEq, Repr

/-- The path-collection pattern shared verbatim by `include_headers` and
`send_generic_files`: start from an empty set and `update` it with the
resolved paths of the argument (or of each element of the iterable).
`set.update(None)` — the unresolvable-path case — raises a TypeError. -/
def update_paths_from_arg (fs : FileSystem) (arg : PathsArg) :
    Except PyErr (Finset String) :=
  match arg with
  | .str s =>
      match get_paths_set_from_string fs s with
      | none => Except.error PyErr.typeError
      | some ps => Except.ok ps
  | .iter l =>
      l.foldlM (fun acc p =>
        match get_paths_set_from_string fs p with
        | none => Except.error PyErr.typeError
        | some ps => Except.ok (acc ∪ ps)) ∅

/-- Embedding of `include_headers` (`__init__.py` 148-176): collect the
header paths, distribute them when the backend is not local, and add them
to the `includes_headers` set.  The `Utils.declare_headers` call goes to
the external analysis engine and is outside the embedded core. -/
def include_headers (fs : FileSystem) (st : PyState) (headers_paths : PathsArg) :
    Except PyErr PyState := do
  let headers_to_include ← update_paths_from_arg fs headers_paths
  let backend ←
    if st.current_backend.is_local = false then
      st.current_backend.distribute_files headers_to_include
    else pure st.current_backend
  Except.ok { st with
    current_backend := backend,
    includes_headers := st.includes_headers ∪ headers_to_include }

/-- Embedding of `include_shared_libraries` (`__init__.py` 179-219):
collect the pcm and library paths (per path of an iterable, accumulating
both sets), distribute the libraries and then the pcm files when not on
the local backend, declare the libraries (external engine, outside the
core), and finally run the source's literal
`includes_shared_libraries.update(includes_shared_libraries)`. -/
def include_shared_libraries (fs : FileSystem) (st : PyState)
    (shared_libraries_paths : PathsArg) : Except PyErr PyState := do
  let pair ←
    match shared_libraries_paths with
    | .str s => check_pcm_in_library_path fs s
    | .iter l =>
        l.foldlM (fun acc p => do
          let pr ← check_pcm_in_library_path fs p
          Except.ok (acc.1 ∪ pr.1, acc.2 ∪ pr.2)) ((∅ : Finset String), (∅ : Finset String))
  let backend ←
    if st.current_backend.is_local = false then do
      let b1 ← st.current_backend.distribute_files pair.2
      b1.distribute_files pair.1
    else pure st.current_backend
  Except.ok { st with
    current_backend := backend,
    includes_shared_libraries :=
      st.includes_shared_libraries ∪ st.includes_shared_libraries }

/-- Embedding of `send_generic_files` (`__init__.py` 222-241): collect the
file paths and distribute them when the backend is not local.  The source
declares `global includes_files` but never adds the collected paths to it,
so the state's `includes_files` set is returned unchanged. -/
def send_generic_files (fs : FileSystem) (st : PyState) (files_paths : PathsArg) :
    Except PyErr PyState := do
  let files_to_include ← update_paths_from_arg fs files_paths
  let backend ←
    if st.current_backend.is_local = false then
      st.current_backend.distribute_files files_to_include
    else pure st.current_backend
  Except.ok { st with current_backend := backend }

/-- Union of the resolved path sets of a list of path strings (empty set
for an unresolvable path); used only to state what the iterable case of
the entry points accumulates. -/
def resolved_union (fs : FileSystem) : List String → Finset String
  | [] => ∅
  | p :: ps => (get_paths_set_from_string fs p).getD ∅ ∪ resolved_union fs ps

/-- Test file system: three plain files, a directory `libs` holding a
shared library, its `.pcm` dictionary and an unrelated text file, and
nothing else. -/
def fsTest : FileSystem :=
  { isDir := fun p => p == "libs",
    isFile := fun p => p == "h.h" || p == "lib.so" || p == "data.txt",
    walk := fun p => if p == "libs" then {"a.so", "a_rdict.pcm", "notes.txt"} else ∅ }

/-- Module state with the local backend and empty artifact sets. -/
def stLocal : PyState :=
  { current_backend := BackendV.localB {},
    includes_headers := ∅,
    includes_shared_libraries := ∅,
    includes_files := ∅ }

/-- The Parsl backend instance produced by `Parsl.init` from a four-thread
pool-executor configuration. -/
def pbTest : ParslState :=
  { parslConfig := { executors := [PExecutor.threadPoolExecutor 4 none] },
    npartitions := 4,
    sparkContext := none }

/-- Module state with the Parsl backend and empty artifact sets. -/
def stParsl : PyState :=
  { current_backend := BackendV.parslB pbTest,
    includes_headers := ∅,
    includes_shared_libraries := ∅,
    includes_files := ∅ }

theorem mergeLoop_cons_cons {ρ : Type} (x y : FTree ρ) (rest : List (FTree ρ)) :
    mergeLoop (x :: y :: rest) = mergeLoop (rest ++ [FTree.node x y]) := by
  simp [mergeLoop]

theorem mergeLoop_some {ρ : Type} (l : List (FTree ρ)) :
    l ≠ [] →
      ∃ t, mergeLoop l = some t ∧
        (FTree.leaves t).Perm (l.map FTree.leaves).flatten := by
  induction l using mergeLoop.induct with
  | case1 => intro hne; exact absurd rfl hne
  | case2 t => intro hne; exact ⟨t, by simp [mergeLoop], by simp⟩
  | case3 x y rest ih =>
      intro hne
      obtain ⟨t, ht, hperm⟩ := ih (by simp)
      refine ⟨t, by rw [mergeLoop_cons_cons]; exact ht, ?_⟩
      refine hperm.trans ?_
      simp only [List.map_append, List.map_cons, List.map_nil, List.flatten_append,
        List.flatten_cons, List.flatten_nil, List.append_nil, FTree.leaves]
      have h1 : ((rest.map FTree.leaves).flatten ++
            (FTree.leaves x ++ FTree.leaves y)).Perm
          ((FTree.leaves x ++ FTree.leaves y) ++ (rest.map FTree.leaves).flatten) :=
        List.perm_append_comm
      simpa [List.append_assoc] using h1

theorem foldl_red_right {α : Type} (red : α → α → α)
    (hassoc : ∀ a b c, red (red a b) c = red a (red b c))
    (hcomm : ∀ a b, red a b = red b a) :
    ∀ (l : List α) (a b : α),
      red (List.foldl red a l) b = List.foldl red (red a b) l := by
  intro l
  induction l with
  | nil => intro a b; simp
  | cons c cs ih =>
      intro a b
      simp only [List.foldl_cons]
      rw [ih]
      congr 1
      rw [hassoc, hassoc, hcomm c b]

theorem mergeLoop_evalT_foldl {ρ α : Type} (m : ρ → α) (red : α → α → α)
    (hassoc : ∀ a b c, red (red a b) c = red a (red b c))
    (hcomm : ∀ a b, red a b = red b a)
    (l : List (FTree ρ)) :
    ∀ (x : FTree ρ) (xs : List (FTree ρ)) (t : FTree ρ),
      l = x :: xs → mergeLoop l = some t →
        FTree.evalT m red t =
          List.foldl (fun a u => red a (FTree.evalT m red u))
            (FTree.evalT m red x) xs := by
  induction l using mergeLoop.induct with
  | case1 =>
      intro x xs t hl
      exact absurd hl (by simp)
  | case2 t0 =>
      intro x xs t hl ht
      cases hl
      simp only [mergeLoop] at ht
      injection ht with h
      subst h
      simp
  | case3 a b rest ih =>
      intro x xs t hl ht
      cases hl
      rw [mergeLoop_cons_cons] at ht
      cases rest with
      | nil =>
          have htv : t = FTree.node a b := by
            simp only [List.nil_append, mergeLoop] at ht
            injection ht with h
            exact h.symm
          subst htv
          simp [FTree.evalT]
      | cons r rs =>
          have hiter := ih r (rs ++ [FTree.node a b]) t (by simp) ht
          rw [hiter]
          rw [List.foldl_append]
          simp only [List.foldl_cons, List.foldl_nil, FTree.evalT]
          rw [← List.foldl_map (FTree.evalT m red) red,
            ← List.foldl_map (FTree.evalT m red) red]
          rw [foldl_red_right red hassoc hcomm]
          congr 1
          exact hcomm _ _

/-- Claim C1, counterexample: list concatenation is associative, yet on the
three ranges `[1, 2, 3]` with mapper `n ↦ [n]` the distributed map-merge
returns `[3, 1, 2]` — the worklist rotation makes the third partial result
the left operand of the final reduce — while mapping each range and folding
serially left-to-right gives `[1, 2, 3]`. -/
theorem ProcessAndMerge_assoc_counterexample :
    (∀ a b c : List Nat, (a ++ b) ++ c = a ++ (b ++ c)) ∧
    ProcessAndMerge (fun n : Nat => [n]) (fun a b => a ++ b) [1, 2, 3] =
      Except.ok [3, 1, 2] ∧
    serial_map_fold (fun n : Nat => [n]) (fun a b => a ++ b) [1, 2, 3] =
      some [1, 2, 3] ∧
    ([3, 1, 2] : List Nat) ≠ [1, 2, 3] := by
  refine ⟨fun a b c => List.append_assoc a b c, ?_, by simp [serial_map_fold], by decide⟩
  simp [ProcessAndMerge, mergeLoop, FTree.evalT]

/-- Claim C1, amended: for a reducer that is associative AND commutative,
and any nonempty list of ranges, the distributed map-merge
(`ProcessAndMerge`) returns the same final value as mapping each range and
folding the partial results serially left-to-right — independent of the
order in which the individual futures complete, since a future's value is
a function of its task graph alone. -/
theorem ProcessAndMerge_serial_of_assoc_comm {ρ α : Type} (m : ρ → α)
    (red : α → α → α)
    (hassoc : ∀ a b c, red (red a b) c = red a (red b c))
    (hcomm : ∀ a b, red a b = red b a)
    (ranges : List ρ) (hne : ranges ≠ []) :
    ∃ v, serial_map_fold m red ranges = some v ∧
      ProcessAndMerge m red ranges = Except.ok v := by
  match ranges with
  | [] => exact absurd rfl hne
  | r :: rs =>
      refine ⟨List.foldl (fun a q => red a (m q)) (m r) rs, rfl, ?_⟩
      obtain ⟨t, ht, -⟩ := mergeLoop_some (List.map FTree.leaf (r :: rs)) (by simp)
      have heval := mergeLoop_evalT_foldl m red hassoc hcomm _ (FTree.leaf r)
        (List.map FTree.leaf rs) t (by simp) ht
      simp only [ProcessAndMerge, ht]
      rw [heval, List.foldl_map]
      simp [FTree.evalT]

/-- Claim C1 witness: with addition on `Nat` (associative and commutative)
over ranges `[1, 2, 3]`, both sides agree. -/
theorem ProcessAndMerge_serial_of_assoc_comm_witness :
    ∃ v, serial_map_fold (fun n : Nat => n) (fun a b => a + b) [1, 2, 3] = some v ∧
      ProcessAndMerge (fun n : Nat => n) (fun a b => a + b) [1, 2, 3] =
        Except.ok v :=
  ProcessAndMerge_serial_of_assoc_comm (fun n : Nat => n) (fun a b => a + b)
    (fun a b c => Nat.add_assoc a b c) Nat.add_comm [1, 2, 3] (by decide)

theorem flatten_leaves_of_leaf {ρ : Type} (ranges : List ρ) :
    ((List.map FTree.leaf ranges).map FTree.leaves).flatten = ranges := by
  induction ranges with
  | nil => simp
  | cons r rs ih =>
      simp only [List.map_cons, List.flatten_cons, FTree.leaves]
      rw [ih]
      rfl

/-- Claim C2: ProcessAndMerge submits exactly one mapper task per range, in
range order (the worklist is seeded with `List.map FTree.leaf ranges`),
repeatedly removes the two front-most entries — the first one removed
becoming the left operand of the submitted reduce — and appends the
combined future to the back (the stated worklist equation), until exactly
one future `t` remains; that future covers each range exactly once, and the
function blocks only once, on `t`'s result (`FTree.evalT`). -/
theorem ProcessAndMerge_worklist {ρ α : Type} (m : ρ → α) (red : α → α → α)
    (ranges : List ρ) (hne : ranges ≠ []) :
    (∀ (x y : FTree ρ) (rest : List (FTree ρ)),
        mergeLoop (x :: y :: rest) = mergeLoop (rest ++ [FTree.node x y])) ∧
    ∃ t, mergeLoop (List.map FTree.leaf ranges) = some t ∧
      (FTree.leaves t).Perm ranges ∧
      ProcessAndMerge m red ranges = Except.ok (FTree.evalT m red t) := by
  refine ⟨mergeLoop_cons_cons, ?_⟩
  obtain ⟨t, ht, hperm⟩ := mergeLoop_some (List.map FTree.leaf ranges)
    (by simpa using hne)
  refine ⟨t, ht, ?_, by simp [ProcessAndMerge, ht]⟩
  refine hperm.trans ?_
  rw [flatten_leaves_of_leaf]

/-- Claim C2 witness: instantiated on ranges `[10, 20, 30]` with identity
mapper and addition. -/
theorem ProcessAndMerge_worklist_witness :
    (∀ (x y : FTree Nat) (rest : List (FTree Nat)),
        mergeLoop (x :: y :: rest) = mergeLoop (rest ++ [FTree.node x y])) ∧
    ∃ t, mergeLoop (List.map FTree.leaf [10, 20, 30]) = some t ∧
      (FTree.leaves t).Perm [10, 20, 30] ∧
      ProcessAndMerge (fun n : Nat => n) (fun a b => a + b) [10, 20, 30] =
        Except.ok (FTree.evalT (fun n : Nat => n) (fun a b => a + b) t) :=
  ProcessAndMerge_worklist (fun n : Nat => n) (fun a b => a + b) [10, 20, 30]
    (by decide)

/-- Claim C8, counterexample: on an empty sequence of ranges the merge
orchestrator does not short-circuit to a neutral result and does not raise
a dedicated empty-computation error; it fails with the IndexError of
`results.pop()` on the empty worklist. -/
theorem ProcessAndMerge_empty_counterexample :
    ProcessAndMerge (fun n : Nat => n) (fun a b => a + b) [] =
      Except.error PyErr.indexError ∧
    PyErr.indexError ≠ PyErr.emptyComputationError :=
  ⟨by simp [ProcessAndMerge, mergeLoop], by decide⟩

/-- Claim C8, amended: when the partitioning yields an empty sequence of
ranges, ProcessAndMerge raises an IndexError (from popping the empty
worklist) for every mapper and reducer; there is no neutral-result
short-circuit and no empty-computation error. -/
theorem ProcessAndMerge_empty {ρ α : Type} (m : ρ → α) (red : α → α → α) :
    ProcessAndMerge m red ([] : List ρ) = Except.error PyErr.indexError := by
  simp [ProcessAndMerge, mergeLoop]

/-- Claim C3: backend selection by name — a name outside
{local, spark, parsl, dask} raises the generic selection Exception naming
the incorrect backend environment; the reserved name "dask" raises the
distinct NotImplementedError; and constructing the parsl backend from a
configuration missing the required 'executor' key fails with the
missing-key configuration error (KeyError 'executor'). -/
theorem use_selection_errors (g : ParslGlobal) (name : String) (conf : Conf)
    (hname : name ∉ (["local", "spark", "parsl", "dask"] : List String))
    (hexec : conf.executor = none) :
    (use g name conf).2 =
        Except.error (PyErr.genericException
          ("Incorrect backend environment " ++ name)) ∧
    (use g "dask" conf).2 = Except.error PyErr.notImplementedError ∧
    (use g "parsl" conf).2 = Except.error (PyErr.keyError "executor") := by
  simp only [List.mem_cons, List.not_mem_nil, or_false, not_or] at hname
  obtain ⟨hl, hs, hp, hd⟩ := hname
  refine ⟨?_, ?_, ?_⟩
  · simp [use, hl, hs, hp, hd]
  · simp [use]
  · simp [use, Parsl.init, make_executor, hexec]

/-- Claim C3 witness: the unknown name "foo", and an empty configuration
for the parsl constructor. -/
theorem use_selection_errors_witness :
    ("foo" ∉ (["local", "spark", "parsl", "dask"] : List String)) ∧
    (({} : Conf).executor = none) ∧
    ((use none "foo" {}).2 =
        Except.error (PyErr.genericException
          ("Incorrect backend environment " ++ "foo")) ∧
      (use none "dask" {}).2 = Except.error PyErr.notImplementedError ∧
      (use none "parsl" {}).2 = Except.error (PyErr.keyError "executor")) :=
  ⟨by decide, rfl, use_selection_errors none "foo" {} (by decide) rfl⟩

/-- Claim C4, counterexample: with npartitions explicitly configured as 0
and a thread-pool executor whose max_threads is 16, `_get_partitions`
returns 16, not the configured 0 — Python truthiness treats the configured
0 as absent, so the configured value does not always win. -/
theorem get_partitions_zero_counterexample :
    Parsl.get_partitions (some 0)
        { executors := [PExecutor.threadPoolExecutor 16 none] } = Except.ok 16 ∧
    (16 : Nat) ≠ 0 :=
  ⟨rfl, by decide⟩

/-- Claim C4, amended: precedence among truthy values — a nonzero
configured npartitions wins; otherwise, for an executor exposing
max_threads, a nonzero max_threads is used; otherwise the fixed default 4.
A configured npartitions of 0 is falsy in Python and is skipped exactly
like an absent value. -/
theorem get_partitions_precedence (n mt : Nat) (lbl : Option String) :
    (n ≠ 0 →
      Parsl.get_partitions (some n)
        { executors := [PExecutor.threadPoolExecutor mt lbl] } = Except.ok n) ∧
    (mt ≠ 0 →
      Parsl.get_partitions none
          { executors := [PExecutor.threadPoolExecutor mt lbl] } = Except.ok mt ∧
      Parsl.get_partitions (some 0)
          { executors := [PExecutor.threadPoolExecutor mt lbl] } = Except.ok mt) ∧
    Parsl.get_partitions none
        { executors := [PExecutor.threadPoolExecutor 0 lbl] } = Except.ok 4 := by
  refine ⟨?_, ?_, rfl⟩
  · intro hn
    simp [Parsl.get_partitions, py_truthy, hn]
  · intro hmt
    constructor
    · simp [Parsl.get_partitions, py_truthy, PExecutor.max_threads_attr, hmt]
    · simp [Parsl.get_partitions, py_truthy, PExecutor.max_threads_attr, hmt]

/-- Claim C4 witness: a configured npartitions of 5 beats a max_threads of
9. -/
theorem get_partitions_precedence_witness :
    (5 : Nat) ≠ 0 ∧
    Parsl.get_partitions (some 5)
        { executors := [PExecutor.threadPoolExecutor 9 none] } = Except.ok 5 :=
  ⟨by decide, (get_partitions_precedence 5 9 none).1 (by decide)⟩

/-- Claim C10: every successful construction of a Parsl backend clears and
reloads the process-wide parsl runtime (`parsl.clear()` then
`parsl.load(_config)`): afterwards the runtime holds exactly the new
backend's configuration, and the whole construction result is independent
of whatever configuration a previously constructed backend had loaded —
the previous global executor configuration is discarded. -/
theorem Parsl_init_reloads_global (g : ParslGlobal) (config : Conf)
    (p : ParslState) (hok : (Parsl.init g config).2 = Except.ok p) :
    (Parsl.init g config).1 = some p.parslConfig ∧
    ∀ g2 : ParslGlobal, Parsl.init g2 config = (some p.parslConfig, Except.ok p) := by
  cases hex : make_executor config with
  | error e => simp [Parsl.init, hex] at hok
  | ok ex =>
      cases hgp : Parsl.get_partitions config.npartitions { executors := [ex] } with
      | error e => simp [Parsl.init, hex, hgp] at hok
      | ok np =>
          simp only [Parsl.init, hex, hgp] at hok
          injection hok with hok
          subst hok
          exact ⟨by simp [Parsl.init, hex, hgp],
            fun g2 => by simp [Parsl.init, hex, hgp]⟩

/-- Claim C10 witness: constructing over an already-loaded runtime holding
an empty configuration, with a thread-pool executor of 4 threads. -/
theorem Parsl_init_reloads_global_witness :
    (Parsl.init (some { executors := [] })
        { executor := some "ThreadPoolExecutor",
          parameters := some { max_threads := some 4 } }).1 =
      some { executors := [PExecutor.threadPoolExecutor 4 none] } ∧
    ∀ g2 : ParslGlobal,
      Parsl.init g2
          { executor := some "ThreadPoolExecutor",
            parameters := some { max_threads := some 4 } } =
        (some { executors := [PExecutor.threadPoolExecutor 4 none] },
         Except.ok
           { parslConfig := { executors := [PExecutor.threadPoolExecutor 4 none] },
             npartitions := 4,
             sparkContext := none }) :=
  Parsl_init_reloads_global (some { executors := [] })
    { executor := some "ThreadPoolExecutor",
      parameters := some { max_threads := some 4 } }
    { parslConfig := { executors := [PExecutor.threadPoolExecutor 4 none] },
      npartitions := 4,
      sparkContext := none }
    rfl

/-- Claim C5 (code bug): the entry points do dispatch to `distribute_files`
exactly when the backend is not local — on the local backend registration
succeeds without any distribution — but on a Parsl backend (here the one
actually produced by `Parsl.init`) `distribute_files` reads the
never-assigned `self.sparkContext` attribute, a remnant of the Spark
backend, and raises AttributeError instead of pushing the artifact to the
workers, so registration on the Parsl backend fails. -/
theorem parsl_distribute_files_bug :
    (Parsl.init none
        { executor := some "ThreadPoolExecutor",
          parameters := some { max_threads := some 4 } }).2 = Except.ok pbTest ∧
    Parsl.distribute_files pbTest {"h.h"} = Except.error PyErr.attributeError ∧
    include_headers fsTest stParsl (PathsArg.str "h.h") =
      Except.error PyErr.attributeError ∧
    include_headers fsTest stLocal (PathsArg.str "h.h") =
      Except.ok { stLocal with includes_headers := {"h.h"} } :=
  ⟨rfl, rfl, rfl, rfl⟩

/-- Claim C6 (code bug): registering the same header twice leaves one entry
and populates `includes_headers`, but `include_shared_libraries` runs the
source's literal `includes_shared_libraries.update(includes_shared_libraries)`
— a no-op union of the set with itself — and `send_generic_files` never
touches `includes_files`, so after registering an existing `lib.so` or
`data.txt` on the local backend the corresponding artifact set is still
empty: two of the three sets are never populated by their entry points. -/
theorem registry_population_bug :
    include_headers fsTest stLocal (PathsArg.str "h.h") =
      Except.ok { stLocal with includes_headers := {"h.h"} } ∧
    include_headers fsTest { stLocal with includes_headers := {"h.h"} }
        (PathsArg.str "h.h") =
      Except.ok { stLocal with includes_headers := {"h.h"} } ∧
    include_shared_libraries fsTest stLocal (PathsArg.str "lib.so") =
      Except.ok stLocal ∧
    send_generic_files fsTest stLocal (PathsArg.str "data.txt") =
      Except.ok stLocal :=
  ⟨rfl, rfl, rfl, rfl⟩

/-- Claim C7 (code bug): for the path "ghost", which is neither an existing
file nor a directory, `_get_paths_set_from_string` returns None
(contradicting its documented set return value); each of the three
registration entry points then fails synchronously, at registration time
and before any distribution or merge — but with the TypeError of iterating
None, not with a distribution IO error. -/
theorem unresolvable_path_bug :
    get_paths_set_from_string fsTest "ghost" = none ∧
    include_headers fsTest stLocal (PathsArg.str "ghost") =
      Except.error PyErr.typeError ∧
    include_shared_libraries fsTest stLocal (PathsArg.str "ghost") =
      Except.error PyErr.typeError ∧
    send_generic_files fsTest stLocal (PathsArg.str "ghost") =
      Except.error PyErr.typeError ∧
    PyErr.typeError ≠ PyErr.distributionIOError :=
  ⟨rfl, rfl, rfl, rfl, by decide⟩

theorem check_pcm_foldlM (fs : FileSystem) :
    ∀ (l : List String) (acc : Finset String × Finset String),
      (∀ p ∈ l, (get_paths_set_from_string fs p).isSome) →
      (List.foldlM (fun acc p => do
          let pr ← check_pcm_in_library_path fs p
          Except.ok (acc.1 ∪ pr.1, acc.2 ∪ pr.2)) acc l
        : Except PyErr (Finset String × Finset String)) =
      Except.ok (acc.1 ∪ pcm_paths_of (resolved_union fs l),
                 acc.2 ∪ libraries_path_of (resolved_union fs l)) := by
  intro l
  induction l with
  | nil =>
      intro acc h
      simp [resolved_union, pcm_paths_of, libraries_path_of, pure, Except.pure]
  | cons p ps ih =>
      intro acc h
      obtain ⟨A, hA⟩ := Option.isSome_iff_exists.mp (h p (List.mem_cons_self p ps))
      have hstep := ih (acc.1 ∪ pcm_paths_of A, acc.2 ∪ libraries_path_of A)
        (fun q hq => h q (List.mem_cons_of_mem p hq))
      simp only [List.foldlM_cons, check_pcm_in_library_path, hA]
      simp only [bind, Except.bind]
      simp only [check_pcm_in_library_path, bind, Except.bind] at hstep
      rw [hstep]
      simp [resolved_union, hA, pcm_paths_of, libraries_path_of,
        Finset.filter_union, Finset.union_assoc]

/-- Claim C9: for every single path and every iterable of paths that all
resolve, the shared-library entry point scans the same locations for
metadata files and distributes them separately from the libraries: files
are classified purely by suffix (`.pcm` → metadata, `.so`/`.dll`/`.dylib`
→ shared libraries), and on a distributed (Spark-modelled) backend two
separate `distribute_files` calls are issued, the libraries first and the
pcm files second. -/
theorem include_shared_libraries_scan (fs : FileSystem) (sp : SparkState)
    (hdrs libs gens : Finset String) (p : String) (A : Finset String)
    (hres : get_paths_set_from_string fs p = some A)
    (l : List String)
    (hl : ∀ q ∈ l, (get_paths_set_from_string fs q).isSome) :
    check_pcm_in_library_path fs p =
      Except.ok (pcm_paths_of A, libraries_path_of A) ∧
    include_shared_libraries fs
        { current_backend := BackendV.sparkB sp, includes_headers := hdrs,
          includes_shared_libraries := libs, includes_files := gens }
        (PathsArg.str p) =
      Except.ok
        { current_backend := BackendV.sparkB
            { pushed := sp.pushed ∪ libraries_path_of A ∪ pcm_paths_of A,
              calls := sp.calls ++ [libraries_path_of A, pcm_paths_of A] },
          includes_headers := hdrs,
          includes_shared_libraries := libs,
          includes_files := gens } ∧
    include_shared_libraries fs
        { current_backend := BackendV.sparkB sp, includes_headers := hdrs,
          includes_shared_libraries := libs, includes_files := gens }
        (PathsArg.iter l) =
      Except.ok
        { current_backend := BackendV.sparkB
            { pushed := sp.pushed ∪ libraries_path_of (resolved_union fs l)
                ∪ pcm_paths_of (resolved_union fs l),
              calls := sp.calls ++ [libraries_path_of (resolved_union fs l),
                pcm_paths_of (resolved_union fs l)] },
          includes_headers := hdrs,
          includes_shared_libraries := libs,
          includes_files := gens } := by
  refine ⟨by simp [check_pcm_in_library_path, hres], ?_, ?_⟩
  · simp [include_shared_libraries, check_pcm_in_library_path, hres,
      BackendV.is_local, BackendV.distribute_files, Spark.distribute_files,
      bind, Except.bind, Finset.union_self]
  · simp only [include_shared_libraries]
    rw [check_pcm_foldlM fs l (∅, ∅) hl]
    simp [BackendV.is_local, BackendV.distribute_files, Spark.distribute_files,
      bind, Except.bind, Finset.union_self]

/-- Claim C9 witness: the directory `libs` of `fsTest`, holding `a.so`,
`a_rdict.pcm` and `notes.txt`, registered once as a single path and once
as a one-element iterable, on a fresh Spark-modelled backend. -/
theorem include_shared_libraries_scan_witness :
    check_pcm_in_library_path fsTest "libs" =
      Except.ok (pcm_paths_of {"a.so", "a_rdict.pcm", "notes.txt"},
                 libraries_path_of {"a.so", "a_rdict.pcm", "notes.txt"}) ∧
    include_shared_libraries fsTest
        { current_backend := BackendV.sparkB { pushed := ∅, calls := [] },
          includes_headers := ∅, includes_shared_libraries := ∅,
          includes_files := ∅ }
        (PathsArg.str "libs") =
      Except.ok
        { current_backend := BackendV.sparkB
            { pushed := ∅ ∪ libraries_path_of {"a.so", "a_rdict.pcm", "notes.txt"}
                ∪ pcm_paths_of {"a.so", "a_rdict.pcm", "notes.txt"},
              calls := [] ++ [libraries_path_of {"a.so", "a_rdict.pcm", "notes.txt"},
                pcm_paths_of {"a.so", "a_rdict.pcm", "notes.txt"}] },
          includes_headers := ∅, includes_shared_libraries := ∅,
          includes_files := ∅ } ∧
    include_shared_libraries fsTest
        { current_backend := BackendV.sparkB { pushed := ∅, calls := [] },
          includes_headers := ∅, includes_shared_libraries := ∅,
          includes_files := ∅ }
        (PathsArg.iter ["libs"]) =
      Except.ok
        { current_backend := BackendV.sparkB
            { pushed := ∅ ∪ libraries_path_of (resolved_union fsTest ["libs"])
                ∪ pcm_paths_of (resolved_union fsTest ["libs"]),
              calls := [] ++ [libraries_path_of (resolved_union fsTest ["libs"]),
                pcm_paths_of (resolved_union fsTest ["libs"])] },
          includes_headers := ∅, includes_shared_libraries := ∅,
          includes_files := ∅ } :=
  include_shared_libraries_scan fsTest { pushed := ∅, calls := [] } ∅ ∅ ∅ "libs"
    {"a.so", "a_rdict.pcm", "notes.txt"} rfl ["libs"]
    (fun q hq => by rcases List.mem_singleton.mp hq with rfl; rfl)
